import Mathlib

/-!
Verification of the embedded-interpreter lifecycle of `pyembed`
(`src/pyembed/src/interpreter.rs`), as a shallow embedding in Lean.

Conventions of the embedding:
* Machine-level function pointers are modelled as `Nat` identifiers.
* C strings are modelled as `Option String` (`none` = null pointer).
* Results of foreign (C API / filesystem / environment) calls are supplied
  by explicit oracle structures, so every fallible foreign call is an input.
* Side effects are recorded as an explicit trace of `Event`s, in the order
  the Rust code performs the calls.
* Rust `panic!` / failed `assert!` / `.unwrap()` on `Err` is the `Outcome.panic`
  outcome.
* The build is modelled with the `jemalloc-sys` feature enabled, so
  `raw_jemallocator()` returns an allocator rather than panicking.
-/

namespace PyEmbed

/-- Lifecycle states of the interpreter (`enum InterpreterState`). -/
inductive InterpreterState where
  | NotStarted
  | Initializing
  | Initialized
  | Finalized
deriving DecidableEq, Repr

/-- Raw memory allocator backends (`python_packaging::interpreter::MemoryAllocatorBackend`). -/
inductive MemoryAllocatorBackend where
  | System
  | Jemalloc
  | Rust
deriving DecidableEq, Repr

/-- The `raw_allocator` configuration: a backend plus a debug-hooks flag
(`PythonRawAllocator { backend, debug }`). -/
structure PythonRawAllocator where
  backend : MemoryAllocatorBackend
  debug : Bool
deriving DecidableEq, Repr

/-- An extra extension module supplied by the embedding application
(`config.extra_extension_modules` entries: a name and an init function pointer). -/
structure ExtraExtensionModule where
  name : String
  init_func : Nat
deriving DecidableEq, Repr

/-- The fields of `ResolvedOxidizedPythonInterpreterConfig` that the lifecycle code
in `interpreter.rs` reads.  `resolve_sys_argv` models whether
`config.resolve_sys_argv()` returns `Some`. -/
structure Config where
  tcl_library : Option String := none
  oxidized_importer : Bool := false
  extra_extension_modules : Option (List ExtraExtensionModule) := none
  raw_allocator : Option PythonRawAllocator := none
  filesystem_importer : Bool := true
  resolve_sys_argv : Bool := false
  argvb : Bool := false
  sys_frozen : Bool := false
  sys_meipass : Bool := false
  write_modules_directory_env : Option String := none
deriving DecidableEq, Repr

/-- One record of `PyImport_Inittab` (`pyffi::_inittab`): a possibly-null module
name and an optional init function pointer. -/
structure Inittab where
  name : Option String
  initfunc : Option Nat
deriving DecidableEq, Repr

/-- The sentinel record with NULLs that terminates an inittab array. -/
def sentinelInittab : Inittab := ⟨none, none⟩

/-- Function pointer id for `PyInit_oxidized_importer`. -/
def PyInit_oxidized_importer : Nat := 0

/-- The inittab record for the oxidized importer extension
(`OXIDIZED_IMPORTER_NAME`). -/
def oxidizedImporterEntry : Inittab :=
  ⟨some "oxidized_importer", some PyInit_oxidized_importer⟩

/-- The process-wide mutable state touched by `set_pyimport_inittab`:
the runtime's `PyImport_Inittab` pointer (modelled by the array contents it
points at), the two `static mut` shadow copies, and the list of shadow tables
that have been deallocated (a Rust assignment to the `static mut`
`REPLACED_BUILTIN_EXTENSIONS` drops, and hence frees, its previous value). -/
structure InittabState where
  pyImportInittab : List Inittab
  original : Option (List Inittab)
  replaced : Option (List Inittab)
  freed : List (List Inittab)
deriving DecidableEq, Repr

/-- The process state at startup: `PyImport_Inittab` holds the runtime's
built-in table, and both shadow statics are `None`. -/
def initInittabState (builtin : List Inittab) : InittabState :=
  ⟨builtin, none, none, []⟩

/-- Shallow embedding of `set_pyimport_inittab` (interpreter.rs lines 478-532).
On first ever use the entries of the current `PyImport_Inittab` up to the first
null-name record are snapshotted into `ORIGINAL_BUILTIN_EXTENSIONS`.  Every call
then clones that snapshot, pushes the oxidized-importer record when
`config.oxidized_importer` is set, pushes each extra extension module in config
order, pushes the NULL sentinel record, and installs the new table, the
assignment to `REPLACED_BUILTIN_EXTENSIONS` dropping (freeing) the previously
installed table. -/
def set_pyimport_inittab (config : Config) (s : InittabState) : InittabState :=
  let s :=
    if s.original.isNone then
      { s with original := some (s.pyImportInittab.takeWhile (fun r => r.name.isSome)) }
    else s
  let extensions := s.original.getD []
  let extensions :=
    if config.oxidized_importer then extensions ++ [oxidizedImporterEntry] else extensions
  let extensions :=
    (config.extra_extension_modules.getD []).foldl
      (fun acc e => acc ++ [Inittab.mk (some e.name) (some e.init_func)]) extensions
  let extensions := extensions ++ [sentinelInittab]
  { s with
    freed :=
      match s.replaced with
      | some old => s.freed ++ [old]
      | none => s.freed
    replaced := some extensions
    pyImportInittab := extensions }

/-- Side effects performed by the lifecycle code, in performed order. -/
inductive Event where
  | setTclLibrary (v : String)
  | setInittab
  | preInit
  | setAllocator (b : MemoryAllocatorBackend)
  | setupDebugHooks
  | coreInit
  | loadResources
  | importOxidizedImporter
  | initImporter
  | mainInit
  | popMetaPath
  | setArgvb
  | setOxidized
  | setFrozen
  | setMeipass
  | gilAcquire
  | runMain
  | writeModulesFile (path : String)
  | logError (msg : String)
  | finalizeEx
deriving DecidableEq, Repr

/-- Errors produced during interpreter construction.  `error.rs` is not part of
the source tree; the type is modelled from its use sites in `interpreter.rs`:
`Simple` carries a static message, `new_from_pystatus` and `new_from_pyerr`
carry the context string passed at the call site (per the spec, the failing
phase is part of the error). -/
inductive NewInterpreterError where
  | simple (msg : String)
  | pystatus (context : String)
  | pyerr (context : String)
deriving DecidableEq, Repr

/-- Outcome of running a lifecycle operation: normal return, an `Err` return,
or a Rust panic (failed `assert!` or `.unwrap()`). -/
inductive Outcome where
  | ok
  | error (e : NewInterpreterError)
  | panic
deriving DecidableEq, Repr

/-- Results of the foreign (C API) calls made during `init`, supplied as an
oracle.  `*Exc` fields model `PyStatus_Exception(status) != 0`; `*Ok` fields
model fallible conversions and calls succeeding. -/
structure Oracle where
  guardPoisoned : Bool := false
  preConfigOk : Bool := true
  preInitExc : Bool := false
  pyConfigOk : Bool := true
  setArgvOk : Bool := true
  coreInitExc : Bool := false
  resourcesNewOk : Bool := true
  resourcesLoadOk : Bool := true
  importOxOk : Bool := true
  initImporterOk : Bool := true
  mainInitExc : Bool := false
  sysImportOk : Bool := true
  metaPathGetOk : Bool := true
  metaPathPopOk : Bool := true
  setArgvbOk : Bool := true
  setOxidizedOk : Bool := true
  setFrozenOk : Bool := true
  setMeipassOk : Bool := true
deriving DecidableEq, Repr

/-- The per-instance fields of `MainPythonInterpreter` that the lifecycle code
mutates.  `interpreter_guard`, `gil`, `py` and `resources_state` model whether
the corresponding `Option` field is `Some`. -/
structure InstState where
  interpreter_state : InterpreterState
  interpreter_guard : Bool
  raw_allocator : Option MemoryAllocatorBackend
  gil : Bool
  py : Bool
  resources_state : Bool
deriving DecidableEq, Repr

/-- The instance as built by `MainPythonInterpreter::new` before `init` runs. -/
def freshInstState : InstState :=
  ⟨.NotStarted, false, none, false, false, false⟩

/-- The raw-allocator installation block of `init` (interpreter.rs lines
215-243): when a raw allocator is configured, a Jemalloc or Rust backend is
materialized and stored on the instance, `PyMem_SetAllocator` is called when the
instance holds an allocator, and `PyMem_SetupDebugHooks` is called when the
debug flag is set. -/
def allocStep (c : Config) (self : InstState) : InstState × List Event :=
  match c.raw_allocator with
  | none => (self, [])
  | some ra =>
    let self :=
      match ra.backend with
      | .System => self
      | .Jemalloc => { self with raw_allocator := some .Jemalloc }
      | .Rust => { self with raw_allocator := some .Rust }
    let tr :=
      match self.raw_allocator with
      | some b => [Event.setAllocator b]
      | none => []
    let tr := if ra.debug then tr ++ [Event.setupDebugHooks] else tr
    (self, tr)

/-- The oxidized-importer bootstrap block of `init` (interpreter.rs lines
271-298): build the resources state, load the packed resources, import the
oxidized importer module and initialize the importer, failing with the
corresponding context on the first failing step. -/
def bootStep (c : Config) (o : Oracle) (self : InstState) :
    Outcome × InstState × List Event :=
  if c.oxidized_importer then
    if !o.resourcesNewOk then
      (.error (.simple "resources state setup failed"), self, [])
    else
      let self := { self with resources_state := true }
      if !o.resourcesLoadOk then
        (.error (.simple "resources load failed"), self, [.loadResources])
      else if !o.importOxOk then
        (.error (.pyerr "import of oxidized importer module"), self,
          [.loadResources, .importOxidizedImporter])
      else if !o.initImporterOk then
        (.error (.pyerr "initialization of oxidized importer"), self,
          [.loadResources, .importOxidizedImporter, .initImporter])
      else
        (.ok, self, [.loadResources, .importOxidizedImporter, .initImporter])
  else
    (.ok, self, [])

/-- The post-initialization flag block of `init` (interpreter.rs lines
344-399): set `sys.argvb` when configured, always set `sys.oxidized`, set
`sys.frozen` and `sys._MEIPASS` when configured, failing with the corresponding
message when a `PySys_SetObject` call returns nonzero. -/
def flagsStep (c : Config) (o : Oracle) : Outcome × List Event :=
  let tr := if c.argvb then [Event.setArgvb] else []
  if c.argvb && !o.setArgvbOk then
    (.error (.simple "unable to set sys.argvb"), tr)
  else
    let tr := tr ++ [Event.setOxidized]
    if !o.setOxidizedOk then
      (.error (.simple "unable to set sys.oxidized"), tr)
    else
      let tr := tr ++ (if c.sys_frozen then [Event.setFrozen] else [])
      if c.sys_frozen && !o.setFrozenOk then
        (.error (.simple "unable to set sys.frozen"), tr)
      else
        let tr := tr ++ (if c.sys_meipass then [Event.setMeipass] else [])
        if c.sys_meipass && !o.setMeipassOk then
          (.error (.simple "unable to set sys._MEIPASS"), tr)
        else
          (.ok, tr)

/-- The tail of `init` after the core initialization call succeeded
(interpreter.rs lines 264-401): oxidized-importer bootstrap, main
initialization, removal of the filesystem importer when disabled, transition to
`Initialized`, then the post-init flags. -/
def initRest (c : Config) (o : Oracle) (self : InstState) :
    Outcome × InstState × List Event :=
  let b := bootStep c o self
  if b.1 ≠ .ok then b
  else
    let self := b.2.1
    let btr := b.2.2 ++ [Event.mainInit]
    if o.mainInitExc then
      (.error (.pystatus "initializing Python main"), self, btr)
    else if !c.filesystem_importer && !o.sysImportOk then
      (.error (.pyerr "obtaining sys module"), self, btr)
    else if !c.filesystem_importer && !o.metaPathGetOk then
      (.error (.pyerr "obtaining sys.meta_path"), self, btr)
    else if !c.filesystem_importer && !o.metaPathPopOk then
      (.error (.pyerr "sys.meta_path.pop()"), self, btr)
    else
      let btr := btr ++ (if !c.filesystem_importer then [Event.popMetaPath] else [])
      let self := { self with py := true, interpreter_state := .Initialized }
      let f := flagsStep c o
      (f.1, self, btr ++ f.2)

/-- Shallow embedding of `MainPythonInterpreter::init` (interpreter.rs lines
172-402).  Returns the outcome, the mutated instance, the mutated process-wide
inittab state, and the trace of side effects.  `Initializing` fails,
`Initialized` returns `Ok` immediately, and both `NotStarted` and `Finalized`
fall through to the full initialization sequence: assert no guard is held,
acquire the global interpreter guard, set `TCL_LIBRARY` when configured,
rebuild the inittab, pre-initialize, install the raw allocator, run core
initialization, and continue with `initRest`. -/
def init (c : Config) (o : Oracle) (self : InstState) (tab : InittabState) :
    Outcome × InstState × InittabState × List Event :=
  match self.interpreter_state with
  | .Initializing =>
    (.error (.simple "interpreter in initializing state"), self, tab, [])
  | .Initialized => (.ok, self, tab, [])
  | _ =>
    if self.interpreter_guard then (.panic, self, tab, [])
    else if o.guardPoisoned then
      (.error (.simple "unable to acquire global interpreter guard"), self, tab, [])
    else
      let self := { self with interpreter_guard := true,
                              interpreter_state := .Initializing }
      let tr : List Event :=
        match c.tcl_library with
        | some v => [.setTclLibrary v]
        | none => []
      let tab := set_pyimport_inittab c tab
      let tr := tr ++ [Event.setInittab]
      if !o.preConfigOk then
        (.error (.simple "converting config to pre-config"), self, tab, tr)
      else
        let tr := tr ++ [Event.preInit]
        if o.preInitExc then
          (.error (.pystatus "Python pre-initialization"), self, tab, tr)
        else
          let a := allocStep c self
          let self := a.1
          let tr := tr ++ a.2
          if !o.pyConfigOk then
            (.error (.simple "converting config to py-config"), self, tab, tr)
          else if c.resolve_sys_argv && !o.setArgvOk then
            (.error (.simple "unable to set config argv"), self, tab, tr)
          else
            let tr := tr ++ [Event.coreInit]
            if o.coreInitExc then
              (.error (.pystatus "initializing Python core"), self, tab, tr)
            else
              let r := initRest c o self
              (r.1, r.2.1, tab, tr ++ r.2.2)

/-- Shallow embedding of `MainPythonInterpreter::acquire_gil` (interpreter.rs
lines 413-439).  Outside `Initialized` it fails with the state-specific static
message.  When `self.py` already holds a handle it is returned unchanged with no
lock acquisition; otherwise the GIL is acquired and stored on the instance. -/
def acquire_gil (self : InstState) : Except String (InstState × List Event) :=
  match self.interpreter_state with
  | .NotStarted => .error "interpreter not initialized"
  | .Initializing => .error "interpreter not fully initialized"
  | .Finalized => .error "interpreter is finalized"
  | .Initialized =>
    if self.py then .ok (self, [])
    else .ok ({ self with gil := true, py := true }, [.gilAcquire])

/-- Shallow embedding of `MainPythonInterpreter::release_gil` (interpreter.rs
lines 405-410). -/
def release_gil (self : InstState) : InstState :=
  if self.py then { self with py := false, gil := false } else self

/-- Shallow embedding of `MainPythonInterpreter::py_runmain` (interpreter.rs
lines 451-462): `Py_RunMain()` executes and finalizes the interpreter (the
`runMain` event includes that finalization), then the instance drops its guard,
resources, GIL and handle and records `Finalized`. -/
def py_runmain (exitCode : Int) (self : InstState) :
    Int × InstState × List Event :=
  (exitCode,
   { self with interpreter_guard := false,
               interpreter_state := .Finalized,
               resources_state := false,
               py := false,
               gil := false },
   [.runMain])

/-- Results of the environment and filesystem calls made on the diagnostics
path, plus the contents the interpreter reports, supplied as an oracle.
`envValue` is the result of `env::var` on the configured variable name;
`loadedModules` are the keys of `sys.modules`; `uuid` is the fresh random
unique id from `uuid::Uuid::new_v4()`. -/
structure FsOracle where
  envValue : Option String := none
  createDirOk : Bool := true
  uuid : String := "0"
  sysOk : Bool := true
  modulesGetOk : Bool := true
  modulesIsDict : Bool := true
  namesOk : Bool := true
  createFileOk : Bool := true
  writeOk : Bool := true
  loadedModules : List String := []
deriving DecidableEq, Repr

/-- Insertion into a `BTreeSet<String>`, modelled as insertion into a sorted
duplicate-free list under the lexicographic `String` order. -/
def btreeInsert (n : String) : List String → List String
  | [] => [n]
  | m :: rest =>
    if n < m then n :: m :: rest
    else if n = m then m :: rest
    else m :: btreeInsert n rest

/-- The `BTreeSet` accumulated by the name-collection loop of
`write_modules_to_directory`: every loaded module name inserted in turn. -/
def moduleNamesSet (names : List String) : List String :=
  names.foldl (fun acc n => btreeInsert n acc) []

/-- The single file created by the diagnostics writer. -/
structure WrittenFile where
  dir : String
  filename : String
  content : String
deriving DecidableEq, Repr

/-- Shallow embedding of `write_modules_to_directory` (interpreter.rs lines
539-575): create the directory, derive the `modules-<uuid>` file name, collect
`sys.modules` keys into a `BTreeSet`, and write each name followed by a newline,
failing with the corresponding static message on the first failing step. -/
def write_modules_to_directory (fs : FsOracle) (path : String) :
    Except String WrittenFile :=
  if !fs.createDirOk then .error "could not create directory for modules"
  else
    let filename := "modules-" ++ fs.uuid
    if !fs.sysOk then .error "could not obtain sys module"
    else if !fs.modulesGetOk then .error "could not obtain sys.modules"
    else if !fs.modulesIsDict then .error "sys.modules is not a dict"
    else if !fs.namesOk then .error "module name is not a str"
    else if !fs.createFileOk then .error "could not open file for writing"
    else if !fs.writeOk then .error "could not write"
    else
      .ok ⟨path, filename,
           (moduleNamesSet fs.loadedModules).foldl (fun acc n => acc ++ n ++ "\n") ""⟩

/-- Shallow embedding of `Drop for MainPythonInterpreter` (interpreter.rs lines
580-593).  When a diagnostics directory environment variable is configured and
set, the GIL is re-acquired with `.unwrap()` — a failure there is a panic that
aborts the teardown before `Py_FinalizeEx` — and a `write_modules_to_directory`
error is logged to stderr and swallowed.  Otherwise the teardown ends with the
unconditional `Py_FinalizeEx` call whose result is discarded. -/
def dropInterpreter (c : Config) (fs : FsOracle) (self : InstState) :
    Outcome × InstState × List Event :=
  let diag : Option (InstState × List Event) :=
    match c.write_modules_directory_env with
    | none => some (self, [])
    | some _ =>
      match fs.envValue with
      | none => some (self, [])
      | some path =>
        match acquire_gil self with
        | .error _ => none
        | .ok g =>
          match write_modules_to_directory fs path with
          | .error msg =>
            some (g.1, g.2 ++ [.logError ("error writing modules file: " ++ msg)])
          | .ok f =>
            some (g.1, g.2 ++ [.writeModulesFile (f.dir ++ "/" ++ f.filename)])
  match diag with
  | none => (.panic, self, [])
  | some d => (.ok, d.1, d.2 ++ [.finalizeEx])

/-- Count of attempts to run the underlying runtime teardown in a trace:
`Py_FinalizeEx` calls plus `Py_RunMain` calls (the latter finalize the
interpreter as documented at interpreter.rs line 454). -/
def teardownAttempts (tr : List Event) : Nat :=
  tr.countP (fun e => e = .finalizeEx || e = .runMain)

/-- One full lifecycle of an instance as driven by the public API:
`new` runs `init` on a fresh instance; when `init` succeeds and `runMain` is
requested, `py_runmain` runs; finally the instance is dropped.  Returns the
concatenated event trace of the whole lifecycle (drop runs even when `init`
failed, since `new` drops the partially built instance on error). -/
def lifecycleTrace (c : Config) (o : Oracle) (fs : FsOracle) (runMain : Bool)
    (tab : InittabState) : List Event :=
  let r := init c o freshInstState tab
  let self := r.2.1
  if r.1 = .ok ∧ runMain then
    let m := py_runmain 0 self
    r.2.2.2 ++ m.2.2 ++ (dropInterpreter c fs m.2.1).2.2
  else
    r.2.2.2 ++ (dropInterpreter c fs self).2.2

/-! Helper lemmas about the diagnostics name set. -/

theorem mem_btreeInsert (a n : String) :
    ∀ l : List String, a ∈ btreeInsert n l ↔ a = n ∨ a ∈ l := by
  intro l
  induction l with
  | nil => simp [btreeInsert]
  | cons m rest ih =>
    by_cases hlt : n < m
    · simp [btreeInsert, hlt]
    · by_cases heq : n = m
      · subst heq
        rw [btreeInsert, if_neg hlt, if_pos rfl]
        simp only [List.mem_cons]
        tauto
      · simp only [btreeInsert, if_neg hlt, if_neg heq, List.mem_cons, ih]
        tauto

theorem sorted_btreeInsert (n : String) :
    ∀ l : List String, l.Sorted (· < ·) → (btreeInsert n l).Sorted (· < ·) := by
  intro l
  induction l with
  | nil => intro _; simp [btreeInsert]
  | cons m rest ih =>
    intro h
    rw [List.sorted_cons] at h
    by_cases hlt : n < m
    · rw [btreeInsert, if_pos hlt, List.sorted_cons]
      refine ⟨?_, List.sorted_cons.mpr h⟩
      intro b hb
      rcases List.mem_cons.mp hb with hb | hb
      · exact hb ▸ hlt
      · exact lt_trans hlt (h.1 b hb)
    · by_cases heq : n = m
      · rw [btreeInsert, if_neg hlt, if_pos heq]
        exact List.sorted_cons.mpr h
      · rw [btreeInsert, if_neg hlt, if_neg heq, List.sorted_cons]
        refine ⟨?_, ih h.2⟩
        intro b hb
        rcases (mem_btreeInsert b n rest).mp hb with hb | hb
        · subst hb
          rcases lt_trichotomy b m with hc | hc | hc
          · exact absurd hc hlt
          · exact absurd hc heq
          · exact hc
        · exact h.1 b hb

theorem sorted_moduleNamesSet (names : List String) :
    (moduleNamesSet names).Sorted (· < ·) := by
  suffices h : ∀ acc : List String, acc.Sorted (· < ·) →
      (names.foldl (fun acc n => btreeInsert n acc) acc).Sorted (· < ·) by
    exact h [] (by simp)
  induction names with
  | nil => intro acc hacc; exact hacc
  | cons x xs ih =>
    intro acc hacc
    exact ih (btreeInsert x acc) (sorted_btreeInsert x acc hacc)

theorem nodup_moduleNamesSet (names : List String) :
    (moduleNamesSet names).Nodup :=
  (sorted_moduleNamesSet names).nodup

theorem mem_moduleNamesSet (a : String) (names : List String) :
    a ∈ moduleNamesSet names ↔ a ∈ names := by
  suffices h : ∀ acc : List String,
      (a ∈ names.foldl (fun acc n => btreeInsert n acc) acc ↔ a ∈ names ∨ a ∈ acc) by
    simpa using h []
  induction names with
  | nil => intro acc; simp
  | cons x xs ih =>
    intro acc
    rw [List.foldl_cons, ih (btreeInsert x acc), mem_btreeInsert]
    simp only [List.mem_cons]
    tauto

theorem foldl_newline_shift (l : List String) :
    ∀ s : String, l.foldl (fun acc n => acc ++ n ++ "\n") s =
      (l.map (fun n => n ++ "\n")).foldl (· ++ ·) s := by
  induction l with
  | nil => intro s; rfl
  | cons x xs ih =>
    intro s
    rw [List.foldl_cons, ih (s ++ x ++ "\n"), List.map_cons, List.foldl_cons,
      String.append_assoc]

theorem foldl_append_newline (l : List String) :
    l.foldl (fun acc n => acc ++ n ++ "\n") "" =
      String.join (l.map (fun n => n ++ "\n")) := by
  rw [foldl_newline_shift]
  rfl

/-! Helper lemmas about the shadow import table. -/

theorem foldl_push_map {α β : Type} (f : α → β) (l : List α) :
    ∀ ini : List β, l.foldl (fun acc e => acc ++ [f e]) ini = ini ++ l.map f := by
  induction l with
  | nil => intro ini; simp
  | cons x xs ih =>
    intro ini
    rw [List.foldl_cons, ih (ini ++ [f x])]
    simp

/-- The canonical snapshot a call to `set_pyimport_inittab` works from: the
already captured `ORIGINAL_BUILTIN_EXTENSIONS`, or on first use the entries of
the current runtime table up to the first null name. -/
def canonicalOf (s : InittabState) : List Inittab :=
  s.original.getD (s.pyImportInittab.takeWhile (fun r => r.name.isSome))

/-- The closed form of the table built by one `set_pyimport_inittab` call:
canonical snapshot, then the custom-loader record when enabled, then the extra
extension modules in config order, then the NULL sentinel. -/
def newShadowTable (c : Config) (canon : List Inittab) : List Inittab :=
  canon ++ (if c.oxidized_importer then [oxidizedImporterEntry] else []) ++
    (c.extra_extension_modules.getD []).map
      (fun e => Inittab.mk (some e.name) (some e.init_func)) ++
    [sentinelInittab]

theorem set_pyimport_inittab_eq (c : Config) (s : InittabState) :
    set_pyimport_inittab c s =
      { pyImportInittab := newShadowTable c (canonicalOf s),
        original := some (canonicalOf s),
        replaced := some (newShadowTable c (canonicalOf s)),
        freed := s.freed ++
          (match s.replaced with
           | some old => [old]
           | none => []) } := by
  rcases s with ⟨tab, orig, repl, freed⟩
  cases orig <;> cases repl <;> cases h : c.oxidized_importer <;>
    simp [set_pyimport_inittab, canonicalOf, newShadowTable, h, foldl_push_map,
      List.append_assoc]

theorem newShadowTable_getLast (c : Config) (canon : List Inittab) :
    (newShadowTable c canon).getLast? = some sentinelInittab := by
  simp [newShadowTable, List.append_assoc]

theorem mem_newShadowTable_of_canon (c : Config) (canon : List Inittab)
    (e : Inittab) (h : e ∈ canon) : e ∈ newShadowTable c canon := by
  simp [newShadowTable, List.append_assoc]
  tauto

/-- Invariant of the process-wide shadow-table state after the first
`set_pyimport_inittab` call: the canonical snapshot is in place and the active
table is a table built by some `begin` over that snapshot. -/
def ShadowInv (canon : List Inittab) (s : InittabState) : Prop :=
  s.original = some canon ∧ ∃ c : Config, s.pyImportInittab = newShadowTable c canon

theorem shadowInv_step (canon : List Inittab) (c : Config) (s : InittabState)
    (h : ShadowInv canon s) : ShadowInv canon (set_pyimport_inittab c s) := by
  obtain ⟨h1, _c0, _h2⟩ := h
  rw [set_pyimport_inittab_eq]
  have hc : canonicalOf s = canon := by simp [canonicalOf, h1]
  exact ⟨by simp [hc], c, by simp [hc]⟩

theorem shadowInv_foldl (canon : List Inittab) (cs : List Config)
    (s : InittabState) (h : ShadowInv canon s) :
    ShadowInv canon (cs.foldl (fun s c => set_pyimport_inittab c s) s) := by
  induction cs generalizing s with
  | nil => exact h
  | cons c rest ih =>
    exact ih (set_pyimport_inittab c s) (shadowInv_step canon c s h)

/-- Concrete built-in inittab used by witnesses: two named extensions followed
by the sentinel, as the runtime table looks at process start. -/
def builtinFixture : List Inittab :=
  [⟨some "sys", some 5⟩, ⟨some "time", some 6⟩, sentinelInittab]

/-- Claim C4: after any number N ≥ 1 of begin calls across N instances in one
process, the active shadow import table is always sentinel-terminated (its last
entry has a null name and no init function) and still contains every entry of
the canonical snapshot captured on first-ever use; no canonical entry is ever
lost across rebuilds. -/
theorem inittab_sentinel_and_canonical_preserved
    (builtin : List Inittab) (configs : List Config) (h : configs ≠ []) :
    (configs.foldl (fun s c => set_pyimport_inittab c s)
        (initInittabState builtin)).original =
      some (builtin.takeWhile (fun r => r.name.isSome)) ∧
    (configs.foldl (fun s c => set_pyimport_inittab c s)
        (initInittabState builtin)).pyImportInittab.getLast? =
      some sentinelInittab ∧
    ∀ e ∈ builtin.takeWhile (fun r => r.name.isSome),
      e ∈ (configs.foldl (fun s c => set_pyimport_inittab c s)
        (initInittabState builtin)).pyImportInittab := by
  obtain ⟨c, cs, rfl⟩ := List.exists_cons_of_ne_nil h
  rw [List.foldl_cons]
  have hcanon : canonicalOf (initInittabState builtin) =
      builtin.takeWhile (fun r => r.name.isSome) := by
    simp [canonicalOf, initInittabState]
  have h1 : ShadowInv (builtin.takeWhile (fun r => r.name.isSome))
      (set_pyimport_inittab c (initInittabState builtin)) := by
    rw [set_pyimport_inittab_eq]
    exact ⟨by simp [hcanon], c, by simp [hcanon]⟩
  obtain ⟨ho, c', htab⟩ := shadowInv_foldl _ cs _ h1
  refine ⟨ho, ?_, ?_⟩
  · rw [htab]
    exact newShadowTable_getLast c' _
  · intro e he
    rw [htab]
    exact mem_newShadowTable_of_canon c' _ e he

/-- Witness for C4 at a concrete built-in table and a single begin call. -/
theorem inittab_sentinel_and_canonical_preserved_witness :
    (([{}] : List Config).foldl (fun s c => set_pyimport_inittab c s)
        (initInittabState builtinFixture)).original =
      some (builtinFixture.takeWhile (fun r => r.name.isSome)) ∧
    (([{}] : List Config).foldl (fun s c => set_pyimport_inittab c s)
        (initInittabState builtinFixture)).pyImportInittab.getLast? =
      some sentinelInittab ∧
    (⟨some "sys", some 5⟩ : Inittab) ∈
      (([{}] : List Config).foldl (fun s c => set_pyimport_inittab c s)
        (initInittabState builtinFixture)).pyImportInittab := by
  have h := inittab_sentinel_and_canonical_preserved builtinFixture [{}]
    (by simp)
  exact ⟨h.1, h.2.1, h.2.2 ⟨some "sys", some 5⟩ (by simp [builtinFixture, sentinelInittab])⟩

/-- Counterexample to Claim C5 as stated: the previous shadow table is not
leaked on replacement — the assignment to the `REPLACED_BUILTIN_EXTENSIONS`
static drops it, so after a second begin the first installed table has been
freed (the freed list holds exactly the first installed table). -/
theorem inittab_previous_table_is_freed :
    (set_pyimport_inittab {} (set_pyimport_inittab {}
        (initInittabState builtinFixture))).freed =
      [(set_pyimport_inittab {} (initInittabState builtinFixture)).pyImportInittab] := by
  simp only [set_pyimport_inittab_eq]
  simp [initInittabState]

/-- Claim C5 (amended): for every begin, the installed import table equals the
canonical list, then the custom-loader entry if enabled, then the
caller-supplied extra entries in caller order, then exactly one sentinel (the
only null-name record, given a null-free canonical list); the previously
installed table is replaced, and — contrary to the original claim — it is
freed when the shadow static is reassigned, not leaked. -/
theorem inittab_layout_on_begin (c : Config) (s : InittabState)
    (hcanon : ∀ e ∈ canonicalOf s, e.name.isSome = true) :
    (set_pyimport_inittab c s).pyImportInittab =
      canonicalOf s ++
        (if c.oxidized_importer then [oxidizedImporterEntry] else []) ++
        (c.extra_extension_modules.getD []).map
          (fun e => Inittab.mk (some e.name) (some e.init_func)) ++
        [sentinelInittab] ∧
    (set_pyimport_inittab c s).original = some (canonicalOf s) ∧
    (set_pyimport_inittab c s).freed = s.freed ++
      (match s.replaced with
       | some old => [old]
       | none => []) ∧
    (set_pyimport_inittab c s).pyImportInittab.countP
      (fun r => r.name.isNone) = 1 := by
  rw [set_pyimport_inittab_eq]
  refine ⟨rfl, rfl, rfl, ?_⟩
  have h0 : (canonicalOf s).countP (fun r => r.name.isNone) = 0 := by
    rw [List.countP_eq_zero]
    intro e he
    have h2 := hcanon e he
    simp only [Option.isSome_iff_exists] at h2
    obtain ⟨v, hv⟩ := h2
    simp [hv]
  cases ho : c.oxidized_importer <;>
    simp [newShadowTable, List.countP_append, h0, ho, sentinelInittab,
      oxidizedImporterEntry, List.countP_eq_zero]

/-- Witness for C5 (amended) at a concrete state and config. -/
theorem inittab_layout_on_begin_witness :
    (set_pyimport_inittab { oxidized_importer := true }
        (initInittabState builtinFixture)).pyImportInittab =
      canonicalOf (initInittabState builtinFixture) ++
        [oxidizedImporterEntry] ++ [] ++ [sentinelInittab] ∧
    (set_pyimport_inittab { oxidized_importer := true }
        (initInittabState builtinFixture)).pyImportInittab.countP
      (fun r => r.name.isNone) = 1 := by
  have h := inittab_layout_on_begin { oxidized_importer := true }
    (initInittabState builtinFixture)
    (by
      intro e he
      simp only [canonicalOf, initInittabState, builtinFixture] at he
      simp only [Option.getD_none] at he
      rcases List.mem_takeWhile_imp he with h2
      simpa using h2)
  refine ⟨?_, h.2.2.2⟩
  have h1 := h.1
  simpa using h1

/-- Concrete instance in the `Initialized` state holding a handle. -/
def initializedInst : InstState := ⟨.Initialized, true, none, false, true, false⟩

/-- Concrete instance in the `Finalized` state, as `py_runmain` leaves it. -/
def finalizedInst : InstState := ⟨.Finalized, false, none, false, false, false⟩

/-- Claim C6: calling begin (init) on an Initialized instance returns success
immediately as a no-op: the instance, the process-wide inittab state and the
side-effect trace are untouched — no guard re-acquisition, no allocator
re-installation, no runtime bring-up, no resource bootstrap. -/
theorem init_noop_when_initialized (c : Config) (o : Oracle)
    (self : InstState) (tab : InittabState)
    (h : self.interpreter_state = .Initialized) :
    init c o self tab = (.ok, self, tab, []) := by
  simp only [init, h]

/-- Witness for C6 at a concrete Initialized instance. -/
theorem init_noop_when_initialized_witness :
    init {} {} initializedInst (initInittabState builtinFixture) =
      (.ok, initializedInst, initInittabState builtinFixture, []) :=
  init_noop_when_initialized {} {} initializedInst (initInittabState builtinFixture) rfl

/-- Claim C7: acquire_gil fails exactly outside the Initialized state, with the
not-ready messages for NotStarted and Initializing and a distinct finalized
message for Finalized; in the Initialized state it returns the held handle
without reacquiring when one is held, and acquires the global lock and stores a
new handle when none is held. -/
theorem acquire_gil_spec (self : InstState) :
    ((∃ msg, acquire_gil self = .error msg) ↔
        self.interpreter_state ≠ .Initialized) ∧
    (self.interpreter_state = .NotStarted →
        acquire_gil self = .error "interpreter not initialized") ∧
    (self.interpreter_state = .Initializing →
        acquire_gil self = .error "interpreter not fully initialized") ∧
    (self.interpreter_state = .Finalized →
        acquire_gil self = .error "interpreter is finalized") ∧
    (("interpreter is finalized" : String) ≠ "interpreter not initialized" ∧
     ("interpreter is finalized" : String) ≠ "interpreter not fully initialized") ∧
    (self.interpreter_state = .Initialized → self.py = true →
        acquire_gil self = .ok (self, [])) ∧
    (self.interpreter_state = .Initialized → self.py = false →
        acquire_gil self =
          .ok ({ self with gil := true, py := true }, [.gilAcquire])) := by
  refine ⟨?_, ?_, ?_, ?_, ⟨by simp, by simp⟩, ?_, ?_⟩ <;>
    cases h : self.interpreter_state <;>
      simp [acquire_gil, h] <;>
        cases hp : self.py <;> simp [hp]

/-- Witness for C7: the Initialized instance returns its held handle, and a
Finalized instance fails with the finalized message. -/
theorem acquire_gil_spec_witness :
    acquire_gil initializedInst = .ok (initializedInst, []) ∧
    acquire_gil finalizedInst = .error "interpreter is finalized" :=
  ⟨(acquire_gil_spec initializedInst).2.2.2.2.2.1 rfl rfl,
   (acquire_gil_spec finalizedInst).2.2.2.1 rfl⟩

/-- Counterexample to Claim C1 as stated: calling begin (init) on a Finalized
instance neither fails nor no-ops — with every foreign call succeeding it
returns Ok, performs a full bring-up trace, and leaves the state Initialized
rather than Finalized. -/
theorem init_after_finalize_reinitializes :
    (init {} {} finalizedInst (initInittabState builtinFixture)).1 = .ok ∧
    (init {} {} finalizedInst
        (initInittabState builtinFixture)).2.1.interpreter_state =
      .Initialized ∧
    (init {} {} finalizedInst (initInittabState builtinFixture)).2.2.2 ≠ [] := by
  refine ⟨rfl, rfl, ?_⟩
  decide

/-- Claim C1 (amended): calling begin (init) on a Finalized instance whose
guard is released (as `py_runmain` leaves it) and whose global lock is not
poisoned is treated exactly like a NotStarted instance — the Finalized arm of
the state match falls through to the full initialization sequence, so the call
re-initializes rather than failing or no-opping. -/
theorem init_finalized_behaves_as_notstarted (c : Config) (o : Oracle)
    (self : InstState) (tab : InittabState)
    (h : self.interpreter_state = .Finalized)
    (hg : self.interpreter_guard = false)
    (hgp : o.guardPoisoned = false) :
    init c o self tab =
      init c o { self with interpreter_state := .NotStarted } tab := by
  rcases self with ⟨st, g, ra, gil, py, rs⟩
  simp only at h hg
  subst h
  subst hg
  simp [init, hgp]

/-- Witness for C1 (amended) at a concrete Finalized instance. -/
theorem init_finalized_behaves_as_notstarted_witness :
    init {} {} finalizedInst (initInittabState builtinFixture) =
      init {} {} { finalizedInst with interpreter_state := .NotStarted }
        (initInittabState builtinFixture) :=
  init_finalized_behaves_as_notstarted {} {} finalizedInst
    (initInittabState builtinFixture) rfl rfl rfl

/-- Claim C9: an exceptional status at pre-initialization, core initialization
or main initialization makes init fail with an error naming that phase, and the
three phase errors are pairwise distinct. -/
theorem init_phase_errors (c : Config) (o : Oracle) (self : InstState)
    (tab : InittabState)
    (hst : self.interpreter_state = .NotStarted)
    (hg : self.interpreter_guard = false)
    (hgp : o.guardPoisoned = false)
    (hpc : o.preConfigOk = true) :
    (o.preInitExc = true →
        (init c o self tab).1 =
          .error (.pystatus "Python pre-initialization")) ∧
    (o.preInitExc = false → o.pyConfigOk = true → o.setArgvOk = true →
      o.coreInitExc = true →
        (init c o self tab).1 =
          .error (.pystatus "initializing Python core")) ∧
    (o.preInitExc = false → o.pyConfigOk = true → o.setArgvOk = true →
      o.coreInitExc = false → c.oxidized_importer = false →
      o.mainInitExc = true →
        (init c o self tab).1 =
          .error (.pystatus "initializing Python main")) ∧
    (NewInterpreterError.pystatus "Python pre-initialization" ≠
        .pystatus "initializing Python core") ∧
    (NewInterpreterError.pystatus "Python pre-initialization" ≠
        .pystatus "initializing Python main") ∧
    (NewInterpreterError.pystatus "initializing Python core" ≠
        .pystatus "initializing Python main") := by
  refine ⟨?_, ?_, ?_, by simp, by simp, by simp⟩
  · intro h1
    simp [init, hst, hg, hgp, hpc, h1]
  · intro h1 h2 h3 h4
    simp [init, hst, hg, hgp, hpc, h1, h2, h3, h4]
  · intro h1 h2 h3 h4 h5 h6
    simp [init, initRest, bootStep, hst, hg, hgp, hpc, h1, h2, h3, h4, h5, h6]

/-- Witness for C9: at concrete inputs the three failing phases surface their
distinct phase errors. -/
theorem init_phase_errors_witness :
    (init {} { preInitExc := true } freshInstState
        (initInittabState builtinFixture)).1 =
      .error (.pystatus "Python pre-initialization") ∧
    (init {} { coreInitExc := true } freshInstState
        (initInittabState builtinFixture)).1 =
      .error (.pystatus "initializing Python core") ∧
    (init {} { mainInitExc := true } freshInstState
        (initInittabState builtinFixture)).1 =
      .error (.pystatus "initializing Python main") :=
  ⟨(init_phase_errors {} { preInitExc := true } freshInstState
      (initInittabState builtinFixture) rfl rfl rfl rfl).1 rfl,
   (init_phase_errors {} { coreInitExc := true } freshInstState
      (initInittabState builtinFixture) rfl rfl rfl rfl).2.1 rfl rfl rfl rfl,
   (init_phase_errors {} { mainInitExc := true } freshInstState
      (initInittabState builtinFixture) rfl rfl rfl rfl).2.2.1
      rfl rfl rfl rfl rfl rfl⟩

/-- Three events occur in this order somewhere in a trace. -/
def SeqIn3 (a b c : Event) (tr : List Event) : Prop :=
  ∃ l1 l2 l3 l4, tr = l1 ++ a :: (l2 ++ b :: (l3 ++ c :: l4))

/-- Claim C8: whenever a raw allocator backend producing a function table
(Jemalloc or Rust — the spec's DebugWrapped case) is configured with debug
instrumentation, the base allocator installation, the debug-hook installation
and the start of the core-initialization call appear in the trace strictly in
that order. -/
theorem allocator_before_debug_before_core (c : Config) (o : Oracle)
    (self : InstState) (tab : InittabState) (b : MemoryAllocatorBackend)
    (hst : self.interpreter_state = .NotStarted)
    (hg : self.interpreter_guard = false)
    (hra : self.raw_allocator = none)
    (hgp : o.guardPoisoned = false)
    (hpc : o.preConfigOk = true)
    (hpi : o.preInitExc = false)
    (hcfg : o.pyConfigOk = true)
    (hsa : o.setArgvOk = true)
    (hb : b ≠ .System)
    (halloc : c.raw_allocator = some ⟨b, true⟩) :
    SeqIn3 (.setAllocator b) .setupDebugHooks .coreInit
      (init c o self tab).2.2.2 := by
  rcases self with ⟨st, g, ra, gil, py, rs⟩
  simp only at hst hg hra
  subst hst; subst hg; subst hra
  have hstep : allocStep c
      ⟨.Initializing, true, none, gil, py, rs⟩ =
      (⟨.Initializing, true, some b, gil, py, rs⟩,
        [Event.setAllocator b, Event.setupDebugHooks]) := by
    cases b <;> simp [allocStep, halloc] at hb ⊢
  refine ⟨(match c.tcl_library with
            | some v => [Event.setTclLibrary v]
            | none => []) ++ [Event.setInittab, Event.preInit],
          [], [], (init c o ⟨.NotStarted, false, none, gil, py, rs⟩ tab).2.2.2.drop
            ((match c.tcl_library with
              | some v => [Event.setTclLibrary v]
              | none => []).length + 5), ?_⟩
  simp [init, hgp, hpc, hpi, hcfg, hsa, hstep]
  cases hce : o.coreInitExc <;>
    cases c.tcl_library <;>
      simp [hce, List.drop_append]

/-- Witness for C8 at a concrete config with the Rust backend and debug
hooks. -/
theorem allocator_before_debug_before_core_witness :
    SeqIn3 (.setAllocator .Rust) .setupDebugHooks .coreInit
      (init { raw_allocator := some ⟨.Rust, true⟩ } {} freshInstState
        (initInittabState builtinFixture)).2.2.2 :=
  allocator_before_debug_before_core
    { raw_allocator := some ⟨.Rust, true⟩ } {} freshInstState
    (initInittabState builtinFixture) .Rust rfl rfl rfl rfl rfl rfl rfl rfl
    (by simp) rfl

/-- Config fixture with the diagnostics directory environment variable set. -/
def diagConfig : Config :=
  { write_modules_directory_env := some "PYOXIDIZER_WRITE_MODULES" }

/-- Filesystem oracle fixture where the diagnostics environment variable is
set to a directory. -/
def diagFs : FsOracle := { envValue := some "/tmp/modules" }

/-- Counterexample to Claim C2 as stated: dropping a Finalized instance (as
`py_runmain` leaves it) with diagnostics configured panics — the diagnostics
GIL-acquisition failure is unwrapped, not logged and swallowed, and the
teardown aborts before `Py_FinalizeEx` (empty trace). -/
theorem drop_panics_on_diagnostics_gil_failure :
    dropInterpreter diagConfig diagFs finalizedInst =
      (.panic, finalizedInst, []) := rfl

theorem acquire_gil_ok_trace (self : InstState) (g : InstState × List Event)
    (h : acquire_gil self = .ok g) : g.2 = [] ∨ g.2 = [.gilAcquire] := by
  cases hst : self.interpreter_state <;> simp [acquire_gil, hst] at h
  cases hp : self.py <;> simp [hp] at h <;> subst h <;> simp

/-- Claim C2 (amended): for teardown of an Initialized instance, diagnostics
failures on the I/O path (module enumeration, directory creation, file
creation, writing) are logged and swallowed and teardown still runs
`Py_FinalizeEx`; a diagnostics execution-context acquisition failure, however
(possible only outside the Initialized state), panics the teardown via the
unwrap instead of being swallowed. -/
theorem drop_swallows_diagnostics_io_errors (c : Config) (fs : FsOracle)
    (self : InstState) (hst : self.interpreter_state = .Initialized) :
    (dropInterpreter c fs self).1 = .ok ∧
    (dropInterpreter c fs self).2.2.getLast? = some .finalizeEx ∧
    (∀ key path, c.write_modules_directory_env = some key →
      fs.envValue = some path →
      ∀ msg, write_modules_to_directory fs path = .error msg →
        Event.logError ("error writing modules file: " ++ msg) ∈
          (dropInterpreter c fs self).2.2) := by
  cases hw : c.write_modules_directory_env with
  | none =>
    refine ⟨by simp [dropInterpreter, hw], by simp [dropInterpreter, hw], ?_⟩
    intro key path hkey
    exact Option.noConfusion hkey
  | some key =>
    cases he : fs.envValue with
    | none =>
      refine ⟨by simp [dropInterpreter, hw, he],
        by simp [dropInterpreter, hw, he], ?_⟩
      intro key' path hkey hpath
      exact Option.noConfusion hpath
    | some path =>
      have hacq : acquire_gil self =
          .ok (if self.py then (self, ([] : List Event))
               else ({ self with gil := true, py := true }, [.gilAcquire])) := by
        cases hp : self.py <;> simp [acquire_gil, hst, hp]
      cases hwr : write_modules_to_directory fs path with
      | error msg =>
        refine ⟨?_, ?_, ?_⟩
        · simp [dropInterpreter, hw, he, hacq, hwr]
        · simp [dropInterpreter, hw, he, hacq, hwr]
        · intro key' path' hkey hpath msg' hmsg
          injection hpath with hpath
          subst hpath
          rw [hwr] at hmsg
          injection hmsg with hmsg
          subst hmsg
          simp [dropInterpreter, hw, he, hacq, hwr]
      | ok f =>
        refine ⟨?_, ?_, ?_⟩
        · simp [dropInterpreter, hw, he, hacq, hwr]
        · simp [dropInterpreter, hw, he, hacq, hwr]
        · intro key' path' hkey hpath msg' hmsg
          injection hpath with hpath
          subst hpath
          rw [hwr] at hmsg
          exact Except.noConfusion hmsg

/-- Witness for C2 (amended): a failing directory creation on an Initialized
instance is logged and swallowed and `Py_FinalizeEx` still ends the trace. -/
theorem drop_swallows_diagnostics_io_errors_witness :
    (dropInterpreter diagConfig { diagFs with createDirOk := false }
        initializedInst).1 = .ok ∧
    (dropInterpreter diagConfig { diagFs with createDirOk := false }
        initializedInst).2.2.getLast? = some .finalizeEx ∧
    Event.logError
        ("error writing modules file: " ++ "could not create directory for modules") ∈
      (dropInterpreter diagConfig { diagFs with createDirOk := false }
        initializedInst).2.2 := by
  have h := drop_swallows_diagnostics_io_errors diagConfig
    { diagFs with createDirOk := false } initializedInst rfl
  exact ⟨h.1, h.2.1, h.2.2 "PYOXIDIZER_WRITE_MODULES" "/tmp/modules" rfl rfl
    "could not create directory for modules" rfl⟩

/-- Counterexample to Claim C3 as stated: an instance finalized via
`py_runmain` and then dropped has the underlying runtime teardown attempted
twice — once inside `Py_RunMain` and once by the unconditional `Py_FinalizeEx`
in Drop — not exactly once. -/
theorem teardown_attempted_twice_after_runmain :
    teardownAttempts (lifecycleTrace {} {} {} true
      (initInittabState builtinFixture)) = 2 := rfl

/-- Claim C3 (amended): every drop whose diagnostics path does not panic
attempts `Py_FinalizeEx` exactly once, regardless of the instance's state (a
panicking diagnostics path attempts it zero times); but an instance finalized
via `py_runmain` and then dropped has the underlying teardown attempted twice
in total. -/
theorem drop_teardown_attempt_count (c : Config) (fs : FsOracle)
    (self : InstState) :
    ((dropInterpreter c fs self).1 ≠ .panic →
      teardownAttempts (dropInterpreter c fs self).2.2 = 1) ∧
    ((dropInterpreter c fs self).1 = .panic →
      teardownAttempts (dropInterpreter c fs self).2.2 = 0) ∧
    (c.write_modules_directory_env = none →
      teardownAttempts ((py_runmain 0 self).2.2 ++
        (dropInterpreter c fs (py_runmain 0 self).2.1).2.2) = 2) := by
  have hmain : ∀ s : InstState, c.write_modules_directory_env = none →
      teardownAttempts ((py_runmain 0 s).2.2 ++
        (dropInterpreter c fs (py_runmain 0 s).2.1).2.2) = 2 := by
    intro s hw
    simp [py_runmain, dropInterpreter, hw, teardownAttempts]
  cases hw : c.write_modules_directory_env with
  | none =>
    exact ⟨fun _ => by simp [dropInterpreter, hw, teardownAttempts],
      by simp [dropInterpreter, hw], fun _ => hmain self hw⟩
  | some key =>
    refine ⟨?_, ?_, ?_⟩
    · intro hnp
      cases he : fs.envValue with
      | none => simp [dropInterpreter, hw, he, teardownAttempts]
      | some path =>
        cases hacq : acquire_gil self with
        | error e =>
          exfalso
          apply hnp
          simp [dropInterpreter, hw, he, hacq]
        | ok g =>
          have hg := acquire_gil_ok_trace self g hacq
          cases hwr : write_modules_to_directory fs path with
          | error msg =>
            rcases hg with hg | hg <;>
              simp [dropInterpreter, hw, he, hacq, hwr, teardownAttempts, hg]
          | ok f =>
            rcases hg with hg | hg <;>
              simp [dropInterpreter, hw, he, hacq, hwr, teardownAttempts, hg]
    · intro hp
      cases he : fs.envValue with
      | none => simp [dropInterpreter, hw, he] at hp
      | some path =>
        cases hacq : acquire_gil self with
        | error e => simp [dropInterpreter, hw, he, hacq, teardownAttempts]
        | ok g =>
          exfalso
          cases hwr : write_modules_to_directory fs path with
          | error msg => simp [dropInterpreter, hw, he, hacq, hwr] at hp
          | ok f => simp [dropInterpreter, hw, he, hacq, hwr] at hp
    · intro hwn
      exact Option.noConfusion hwn

/-- Witness for C3 (amended): a plain drop of an Initialized instance with no
diagnostics configured attempts the teardown exactly once, and the
`py_runmain`-then-drop lifecycle attempts it twice. -/
theorem drop_teardown_attempt_count_witness :
    teardownAttempts (dropInterpreter {} {} initializedInst).2.2 = 1 ∧
    teardownAttempts ((py_runmain 0 initializedInst).2.2 ++
      (dropInterpreter {} {} (py_runmain 0 initializedInst).2.1).2.2) = 2 :=
  ⟨(drop_teardown_attempt_count {} {} initializedInst).1 (by decide),
   (drop_teardown_attempt_count {} {} initializedInst).2.2 rfl⟩

/-- Claim C10: on the success path the diagnostics writer produces a single
file named with the `modules-` prefix and the fresh unique id, whose content is
the deduplicated, lexicographically sorted module names, one per line, each
line newline-terminated; for loaded names ["b", "a", "a", "c"] the content is
exactly "a\n" ++ "b\n" ++ "c\n". -/
theorem diagnostics_file_format (fs : FsOracle) (path : String)
    (h1 : fs.createDirOk = true) (h2 : fs.sysOk = true)
    (h3 : fs.modulesGetOk = true) (h4 : fs.modulesIsDict = true)
    (h5 : fs.namesOk = true) (h6 : fs.createFileOk = true)
    (h7 : fs.writeOk = true) :
    write_modules_to_directory fs path =
      .ok ⟨path, "modules-" ++ fs.uuid,
        String.join ((moduleNamesSet fs.loadedModules).map (fun n => n ++ "\n"))⟩ ∧
    (moduleNamesSet fs.loadedModules).Sorted (· < ·) ∧
    (moduleNamesSet fs.loadedModules).Nodup ∧
    (∀ a, a ∈ moduleNamesSet fs.loadedModules ↔ a ∈ fs.loadedModules) ∧
    (moduleNamesSet ["b", "a", "a", "c"]).foldl
      (fun acc n => acc ++ n ++ "\n") "" = "a\nb\nc\n" := by
  refine ⟨?_, sorted_moduleNamesSet _, nodup_moduleNamesSet _,
    fun a => mem_moduleNamesSet a _, ?_⟩
  · simp [write_modules_to_directory, h1, h2, h3, h4, h5, h6, h7,
      foldl_append_newline]
  · simp [moduleNamesSet, btreeInsert,
      show ¬((['c'] : List Char) < ['a']) by decide,
      show ¬((['c'] : List Char) < ['b']) by decide]

/-- Witness for C10 at the claim's example input. -/
theorem diagnostics_file_format_witness :
    write_modules_to_directory
        { uuid := "u", loadedModules := ["b", "a", "a", "c"] } "/out" =
      .ok ⟨"/out", "modules-" ++ "u",
        String.join ((moduleNamesSet ["b", "a", "a", "c"]).map
          (fun n => n ++ "\n"))⟩ ∧
    (moduleNamesSet ["b", "a", "a", "c"]).foldl
      (fun acc n => acc ++ n ++ "\n") "" = "a\nb\nc\n" :=
  ⟨(diagnostics_file_format
      { uuid := "u", loadedModules := ["b", "a", "a", "c"] } "/out"
      rfl rfl rfl rfl rfl rfl rfl).1,
   (diagnostics_file_format
      { uuid := "u", loadedModules := ["b", "a", "a", "c"] } "/out"
      rfl rfl rfl rfl rfl rfl rfl).2.2.2.2⟩

end PyEmbed
